import Mathlib

/-!
Shallow embedding of the INA226 MicroPython driver (src/ina226.py) and of the
enumeration tables shared with the interactive config calculator
(src/ina_calc_conf.py).

Modelling conventions:
- Python floats are modelled as exact rationals (`ℚ`); every numeric literal
  appearing in the source is an exact decimal, and all concrete values claimed
  by the documentation are reproduced exactly by IEEE double arithmetic, so
  the rational model agrees with the source on every value mentioned below.
- Python's `int(x)` (truncation toward zero) is `pyTrunc`.
- The I2C bus is modelled as a register file (`Device`) holding the six
  16-bit registers of the chip; each driver operation returns, besides its
  result, the updated driver state, the updated device, and the list of bus
  writes `(register, 16-bit value)` it issued, in order.
- Python exceptions (`ValueError`, `RuntimeError`) become an `Except` error
  result: `ValueError` ↦ `invalidParameter`, the "not calibrated"
  `RuntimeError` ↦ `notCalibrated`, the "lsb not set" `RuntimeError` ↦
  `lsbNotSet`.
-/

/-! ## Register addresses (ina226.py lines 15-20) -/

def _REG_CONFIG : Nat := 0x00
def _REG_SHUNTVOLTAGE : Nat := 0x01
def _REG_BUSVOLTAGE : Nat := 0x02
def _REG_POWER : Nat := 0x03
def _REG_CURRENT : Nat := 0x04
def _REG_CALIBRATION : Nat := 0x05

/-! ## Config bits (ina226.py lines 23-24) -/

def _CONFIG_RESET_BIT : Nat := 0x8000
def _CONFIG_CONST_BITS : Nat := 0x4000

/-! ## Averaging field values, AVG[2:0] at bits 11:9 (ina226.py lines 27-34) -/

def _AVG_1 : Nat := 0x0000
def _AVG_4 : Nat := 0x0200
def _AVG_16 : Nat := 0x0400
def _AVG_64 : Nat := 0x0600
def _AVG_128 : Nat := 0x0800
def _AVG_256 : Nat := 0x0A00
def _AVG_512 : Nat := 0x0C00
def _AVG_1024 : Nat := 0x0E00

/-! ## Bus-voltage conversion time, VBUSCT[2:0] at bits 8:6 (lines 37-44) -/

def _VBUSCT_140US : Nat := 0x0000
def _VBUSCT_204US : Nat := 0x0040
def _VBUSCT_332US : Nat := 0x0080
def _VBUSCT_588US : Nat := 0x00C0
def _VBUSCT_1100US : Nat := 0x0100
def _VBUSCT_2116US : Nat := 0x0140
def _VBUSCT_4156US : Nat := 0x0180
def _VBUSCT_8244US : Nat := 0x01C0

/-! ## Shunt-voltage conversion time, VSHCT[2:0] at bits 5:3 (lines 47-54) -/

def _VSHCT_140US : Nat := 0x0000
def _VSHCT_204US : Nat := 0x0008
def _VSHCT_332US : Nat := 0x0010
def _VSHCT_588US : Nat := 0x0018
def _VSHCT_1100US : Nat := 0x0020
def _VSHCT_2116US : Nat := 0x0028
def _VSHCT_4156US : Nat := 0x0030
def _VSHCT_8244US : Nat := 0x0038

/-! ## Operating mode, MODE[2:0] at bits 2:0 (lines 57-64) -/

def _MODE_POWERDOWN : Nat := 0x0000
def _MODE_SHUNT_TRIGGERED : Nat := 0x0001
def _MODE_BUS_TRIGGERED : Nat := 0x0002
def _MODE_SHUNT_BUS_TRIGGERED : Nat := 0x0003
def _MODE_ADC_OFF : Nat := 0x0004
def _MODE_SHUNT_CONTINUOUS : Nat := 0x0005
def _MODE_BUS_CONTINUOUS : Nat := 0x0006
def _MODE_SHUNT_BUS_CONTINUOUS : Nat := 0x0007

/-- The eight legal averaging bit patterns (ina226.py lines 27-34,
ina_calc_conf.py AVG_OPTIONS). -/
def AVG_VALUES : List Nat :=
  [_AVG_1, _AVG_4, _AVG_16, _AVG_64, _AVG_128, _AVG_256, _AVG_512, _AVG_1024]

/-- The eight legal bus-voltage conversion-time bit patterns. -/
def VBUSCT_VALUES : List Nat :=
  [_VBUSCT_140US, _VBUSCT_204US, _VBUSCT_332US, _VBUSCT_588US,
   _VBUSCT_1100US, _VBUSCT_2116US, _VBUSCT_4156US, _VBUSCT_8244US]

/-- The eight legal shunt-voltage conversion-time bit patterns. -/
def VSHCT_VALUES : List Nat :=
  [_VSHCT_140US, _VSHCT_204US, _VSHCT_332US, _VSHCT_588US,
   _VSHCT_1100US, _VSHCT_2116US, _VSHCT_4156US, _VSHCT_8244US]

/-- The eight legal operating-mode bit patterns. -/
def MODE_VALUES : List Nat :=
  [_MODE_POWERDOWN, _MODE_SHUNT_TRIGGERED, _MODE_BUS_TRIGGERED,
   _MODE_SHUNT_BUS_TRIGGERED, _MODE_ADC_OFF, _MODE_SHUNT_CONTINUOUS,
   _MODE_BUS_CONTINUOUS, _MODE_SHUNT_BUS_CONTINUOUS]

/-- Field mask for AVG[2:0] at bits 11:9 (datasheet layout stated in the
source comment, ina226.py line 26). -/
def _AVG_MASK : Nat := 0x0E00

/-- Field mask for VBUSCT[2:0] at bits 8:6 (ina226.py line 36). -/
def _VBUSCT_MASK : Nat := 0x01C0

/-- Field mask for VSHCT[2:0] at bits 5:3 (ina226.py line 46). -/
def _VSHCT_MASK : Nat := 0x0038

/-- Field mask for MODE[2:0] at bits 2:0 (ina226.py line 56). -/
def _MODE_MASK : Nat := 0x0007

/-! ## Fixed LSBs and the calibration constant (ina226.py lines 67-71) -/

def _SHUNT_V_LSB_V : ℚ := 0.0000025
def _BUS_V_LSB_V : ℚ := 0.00125
def _CALIBRATION_FACTOR : ℚ := 0.00512

/-- Python's `int(x)` on a float: truncation toward zero
(`Rat.floor` is used directly because it is kernel-computable). -/
def pyTrunc (q : ℚ) : Int := if q < 0 then -((-q).floor) else q.floor

/-- `_to_signed_16` (ina226.py lines 74-78): convert an unsigned 16-bit word
to its two's-complement signed value. -/
def _to_signed_16 (x : Nat) : Int :=
  if x &&& 0x8000 ≠ 0 then (x : Int) - 0x10000 else (x : Int)

/-- The bus-voltage read path (ina226.py lines 236-239) uses the raw
register word with no sign conversion; `decode_unsigned_16` names that
identity conversion. -/
def decode_unsigned_16 (x : Nat) : Nat := x

/-! ## The device: six 16-bit registers, addressed 0x00-0x05 -/

structure Device where
  configReg : Nat
  shuntVoltageReg : Nat
  busVoltageReg : Nat
  powerReg : Nat
  currentReg : Nat
  calibrationReg : Nat
deriving DecidableEq, Repr

/-- An all-zero register file, used as a concrete starting device. -/
def Device.zero : Device := ⟨0, 0, 0, 0, 0, 0⟩

/-- The 16-bit value that `_write_u16` (ina226.py lines 136-139) actually
puts on the wire: high byte `(value >> 8) & 0xFF`, low byte `value & 0xFF`. -/
def u16OfValue (value : Nat) : Nat :=
  (((value >>> 8) &&& 0xFF) <<< 8) ||| (value &&& 0xFF)

/-- `_write_u16` (ina226.py lines 136-139): store the 16-bit image of
`value` into register `reg`. -/
def _write_u16 (d : Device) (reg value : Nat) : Device :=
  if reg = _REG_CONFIG then { d with configReg := u16OfValue value }
  else if reg = _REG_SHUNTVOLTAGE then { d with shuntVoltageReg := u16OfValue value }
  else if reg = _REG_BUSVOLTAGE then { d with busVoltageReg := u16OfValue value }
  else if reg = _REG_POWER then { d with powerReg := u16OfValue value }
  else if reg = _REG_CURRENT then { d with currentReg := u16OfValue value }
  else if reg = _REG_CALIBRATION then { d with calibrationReg := u16OfValue value }
  else d

/-- `_read_u16` (ina226.py lines 141-143): read register `reg`. -/
def _read_u16 (d : Device) (reg : Nat) : Nat :=
  if reg = _REG_CONFIG then d.configReg
  else if reg = _REG_SHUNTVOLTAGE then d.shuntVoltageReg
  else if reg = _REG_BUSVOLTAGE then d.busVoltageReg
  else if reg = _REG_POWER then d.powerReg
  else if reg = _REG_CURRENT then d.currentReg
  else if reg = _REG_CALIBRATION then d.calibrationReg
  else 0

/-! ## The driver instance state (ina226.py lines 108-131) -/

structure DriverState where
  cal_value : Nat
  current_lsb_a : Option ℚ
  power_lsb_w : Option ℚ
  config : Option Nat
deriving DecidableEq

/-- The instance fields as set at the top of `__init__` (ina226.py
lines 113-119), before `configure` and `calibrate` run. -/
def DriverState.fresh : DriverState := ⟨0, none, none, none⟩

inductive DriverError where
  | invalidParameter
  | notCalibrated
  | lsbNotSet
deriving DecidableEq, Repr

/-- A bus write event: (register address, 16-bit value written). -/
abbrev BusLog := List (Nat × Nat)

/-! ## Driver operations -/

/-- The configuration word built by `configure` (ina226.py line 159):
bitwise OR of the constant bits with the four field arguments. -/
def encode_config (avg vbusct vshct mode : Nat) : Nat :=
  _CONFIG_CONST_BITS ||| avg ||| vbusct ||| vshct ||| mode

/-- `configure` (ina226.py lines 153-162): build the config word, store it
in the instance, write it to the config register, return it.  The source
performs no validation of its arguments. -/
def configure (avg vbusct vshct mode : Nat) (s : DriverState) (d : Device) :
    Nat × DriverState × Device × BusLog :=
  let config := encode_config avg vbusct vshct mode
  (config, { s with config := some config },
   _write_u16 d _REG_CONFIG config, [(_REG_CONFIG, u16OfValue config)])

/-- `reset` (ina226.py lines 148-151): write the reset bit to the config
register; no instance field is touched. -/
def reset (s : DriverState) (d : Device) : DriverState × Device × BusLog :=
  (s, _write_u16 d _REG_CONFIG _CONFIG_RESET_BIT,
   [(_REG_CONFIG, u16OfValue _CONFIG_RESET_BIT)])

/-- The computed-path body of `calibrate` (ina226.py lines 196-211):
`cal = 0.00512 / (r_shunt_ohms * current_lsb_a)`, truncate with `int`,
clamp a result `≤ 0` to 1 and a result `> 0xFFFF` to 0xFFFF. -/
def calibrationScalar (r_shunt_ohms current_lsb_a : ℚ) : Nat :=
  let cal : ℚ := _CALIBRATION_FACTOR / (r_shunt_ohms * current_lsb_a)
  let cal_int : Int := pyTrunc cal
  let cal_int : Int := if cal_int ≤ 0 then 1 else cal_int
  let cal_int : Int := if cal_int > 0xFFFF then 0xFFFF else cal_int
  cal_int.toNat

/-- Shared tail of the computed path (ina226.py lines 206-211): persist the
scalar and both LSBs, write the calibration register, return the scalar. -/
def calibrateStore (calv : Nat) (current_lsb_a : ℚ) (s : DriverState)
    (d : Device) : Nat × DriverState × Device × BusLog :=
  (calv, ⟨calv, some current_lsb_a, some (25 * current_lsb_a), s.config⟩,
   _write_u16 d _REG_CALIBRATION calv, [(_REG_CALIBRATION, u16OfValue calv)])

/-- `calibrate` (ina226.py lines 164-211).  Keyword arguments with `None`
defaults are `Option`s; `r_shunt_ohms` is required. -/
def calibrate (r_shunt_ohms : ℚ) (max_expected_amps current_lsb_a : Option ℚ)
    (cal_value : Option Int) (s : DriverState) (d : Device) :
    Except DriverError (Nat × DriverState × Device × BusLog) :=
  if r_shunt_ohms ≤ 0 then .error .invalidParameter
  else
    match cal_value with
    | some cv =>
      -- Advanced path (lines 178-185): cal_value given, current_lsb_a required.
      match current_lsb_a with
      | none => .error .invalidParameter
      | some lsb =>
        if lsb ≤ 0 then .error .invalidParameter
        else
          let calv := ((cv % 65536).toNat)   -- int(cal_value) & 0xFFFF
          .ok (calibrateStore calv lsb s d)
    | none =>
      -- Computed path (lines 188-211).
      match current_lsb_a with
      | none =>
        match max_expected_amps with
        | none => .error .invalidParameter
        | some m =>
          if m ≤ 0 then .error .invalidParameter
          else .ok (calibrateStore (calibrationScalar r_shunt_ohms (m / 32768)) (m / 32768) s d)
      | some lsb =>
        if lsb ≤ 0 then .error .invalidParameter
        else .ok (calibrateStore (calibrationScalar r_shunt_ohms lsb) lsb s d)

/-- `_ensure_calibration` (ina226.py lines 213-224): fail if never
calibrated; otherwise read the live calibration register and rewrite it
only when it differs from the stored scalar. -/
def _ensure_calibration (s : DriverState) (d : Device) :
    Except DriverError (Device × BusLog) :=
  if s.cal_value = 0 then .error .notCalibrated
  else if _read_u16 d _REG_CALIBRATION ≠ s.cal_value then
    .ok (_write_u16 d _REG_CALIBRATION s.cal_value,
         [(_REG_CALIBRATION, u16OfValue s.cal_value)])
  else .ok (d, [])

/-- The `current` property (ina226.py lines 241-249). -/
def currentRead (s : DriverState) (d : Device) :
    Except DriverError (ℚ × Device × BusLog) :=
  match _ensure_calibration s d with
  | .error e => .error e
  | .ok (d1, log) =>
    match s.current_lsb_a with
    | none => .error .lsbNotSet
    | some lsb =>
      let raw := _to_signed_16 (_read_u16 d1 _REG_CURRENT)
      .ok ((raw : ℚ) * lsb, d1, log)

/-- The `power` property (ina226.py lines 251-259). -/
def powerRead (s : DriverState) (d : Device) :
    Except DriverError (ℚ × Device × BusLog) :=
  match _ensure_calibration s d with
  | .error e => .error e
  | .ok (d1, log) =>
    match s.power_lsb_w with
    | none => .error .lsbNotSet
    | some plsb =>
      let raw := _to_signed_16 (_read_u16 d1 _REG_POWER)
      .ok ((raw : ℚ) * plsb, d1, log)

/-- The `shunt_voltage` property (ina226.py lines 229-233). -/
def shuntVoltageRead (d : Device) : ℚ :=
  (_to_signed_16 (_read_u16 d _REG_SHUNTVOLTAGE) : ℚ) * _SHUNT_V_LSB_V

/-- The `bus_voltage` property (ina226.py lines 235-239). -/
def busVoltageRead (d : Device) : ℚ :=
  (decode_unsigned_16 (_read_u16 d _REG_BUSVOLTAGE) : ℚ) * _BUS_V_LSB_V

/-- `__init__` (ina226.py lines 108-131): zero the instance fields, then
`configure(avg=_AVG_512, vbusct=_VBUSCT_588US, vshct=_VSHCT_588US,
mode=_MODE_SHUNT_BUS_CONTINUOUS)`, then
`calibrate(r_shunt_ohms=0.1, max_expected_amps=3.6, current_lsb_a=0.0001)`. -/
def INA226_init (d : Device) :
    Except DriverError (DriverState × Device × BusLog) :=
  let s0 := DriverState.fresh
  match configure _AVG_512 _VBUSCT_588US _VSHCT_588US _MODE_SHUNT_BUS_CONTINUOUS s0 d with
  | (_, s1, d1, log1) =>
    match calibrate 0.1 (some 3.6) (some 0.0001) none s1 d1 with
    | .error e => .error e
    | .ok (_, s2, d2, log2) => .ok (s2, d2, log1 ++ log2)

/-! ## Helper lemmas -/

/-- The two-byte split performed by `_write_u16` stores exactly the value
modulo `2^16`. -/
theorem u16OfValue_eq_mod (v : Nat) : u16OfValue v = v % 65536 := by
  have hFF : (0xFF : Nat) = 2 ^ 8 - 1 := by norm_num
  rw [u16OfValue, hFF, Nat.and_pow_two_sub_one_eq_mod, Nat.and_pow_two_sub_one_eq_mod,
    Nat.shiftRight_eq_div_pow, Nat.shiftLeft_eq]
  rw [mul_comm (v / 2 ^ 8 % 2 ^ 8) (2 ^ 8)]
  rw [← Nat.mul_add_lt_is_or (Nat.mod_lt _ (by norm_num)) (v / 2 ^ 8 % 2 ^ 8)]
  have h16 : (65536 : Nat) = 2 ^ 8 * 2 ^ 8 := by norm_num
  rw [h16, Nat.mod_mul]
  ring

/-- The computed-path scalar always lands in the closed range [1, 65535]. -/
theorem calibrationScalar_range (r lsb : ℚ) :
    1 ≤ calibrationScalar r lsb ∧ calibrationScalar r lsb ≤ 65535 := by
  simp only [calibrationScalar]
  by_cases h1 : pyTrunc (_CALIBRATION_FACTOR / (r * lsb)) ≤ 0
  · rw [if_pos h1]
    norm_num
  · rw [if_neg h1]
    by_cases h2 : pyTrunc (_CALIBRATION_FACTOR / (r * lsb)) > 0xFFFF
    · rw [if_pos h2]
      norm_num
    · rw [if_neg h2]
      omega


/-! ## Claim theorems -/

/-- C6: for every tuple of valid enumerated field values, masking the
encoded configuration word with each field's bit mask yields back exactly
that field's original bit pattern, and the constant-bits field 0x4000 is
set in the encoded word. -/
theorem encode_config_field_roundtrip :
    ∀ a ∈ AVG_VALUES, ∀ b ∈ VBUSCT_VALUES, ∀ c ∈ VSHCT_VALUES, ∀ m ∈ MODE_VALUES,
      encode_config a b c m &&& _AVG_MASK = a ∧
      encode_config a b c m &&& _VBUSCT_MASK = b ∧
      encode_config a b c m &&& _VSHCT_MASK = c ∧
      encode_config a b c m &&& _MODE_MASK = m ∧
      encode_config a b c m &&& _CONFIG_CONST_BITS = _CONFIG_CONST_BITS := by
  decide

/-- Witness for C6 at the driver's default configuration tuple. -/
theorem encode_config_field_roundtrip_witness :
    _AVG_512 ∈ AVG_VALUES ∧ _VBUSCT_588US ∈ VBUSCT_VALUES ∧
    _VSHCT_588US ∈ VSHCT_VALUES ∧ _MODE_SHUNT_BUS_CONTINUOUS ∈ MODE_VALUES ∧
    (encode_config _AVG_512 _VBUSCT_588US _VSHCT_588US _MODE_SHUNT_BUS_CONTINUOUS &&&
        _AVG_MASK = _AVG_512 ∧
     encode_config _AVG_512 _VBUSCT_588US _VSHCT_588US _MODE_SHUNT_BUS_CONTINUOUS &&&
        _VBUSCT_MASK = _VBUSCT_588US ∧
     encode_config _AVG_512 _VBUSCT_588US _VSHCT_588US _MODE_SHUNT_BUS_CONTINUOUS &&&
        _VSHCT_MASK = _VSHCT_588US ∧
     encode_config _AVG_512 _VBUSCT_588US _VSHCT_588US _MODE_SHUNT_BUS_CONTINUOUS &&&
        _MODE_MASK = _MODE_SHUNT_BUS_CONTINUOUS ∧
     encode_config _AVG_512 _VBUSCT_588US _VSHCT_588US _MODE_SHUNT_BUS_CONTINUOUS &&&
        _CONFIG_CONST_BITS = _CONFIG_CONST_BITS) :=
  ⟨by decide, by decide, by decide, by decide,
   encode_config_field_roundtrip _AVG_512 (by decide) _VBUSCT_588US (by decide)
     _VSHCT_588US (by decide) _MODE_SHUNT_BUS_CONTINUOUS (by decide)⟩

/-- C7: on 16-bit raw values the signed decode subtracts 65536 exactly when
bit 15 is set, the documented concrete values hold, and the unsigned decode
is the identity. -/
theorem to_signed_16_spec :
    ∀ raw : Nat, raw < 65536 →
      _to_signed_16 raw = (if raw.testBit 15 then (raw : Int) - 65536 else (raw : Int)) ∧
      _to_signed_16 0x7FFF = 32767 ∧
      _to_signed_16 0x8000 = -32768 ∧
      _to_signed_16 0xFFFF = -1 ∧
      decode_unsigned_16 0xFFFF = 65535 := by
  intro raw _
  refine ⟨?_, by decide, by decide, by decide, by decide⟩
  have h2 : (0x8000 : Nat) = 2 ^ 15 := by norm_num
  rw [_to_signed_16, h2, Nat.and_two_pow]
  cases hb : raw.testBit 15 <;> simp [hb]

/-- Witness for C7 at raw = 0x8000. -/
theorem to_signed_16_spec_witness :
    (0x8000 : Nat) < 65536 ∧
    (_to_signed_16 0x8000 =
        (if (0x8000 : Nat).testBit 15 then ((0x8000 : Nat) : Int) - 65536
         else ((0x8000 : Nat) : Int)) ∧
     _to_signed_16 0x7FFF = 32767 ∧
     _to_signed_16 0x8000 = -32768 ∧
     _to_signed_16 0xFFFF = -1 ∧
     decode_unsigned_16 0xFFFF = 65535) :=
  ⟨by decide, to_signed_16_spec 0x8000 (by decide)⟩

/-- C1 counterexample: 0x0100 is not one of the eight legal AVG bit
patterns, yet `configure` does not fail with an InvalidParameter error: it
produces the configuration word 0x41DF, stores it, and writes it to the
configuration register. -/
theorem configure_accepts_invalid_field :
    (0x0100 : Nat) ∉ AVG_VALUES ∧
    (configure 0x0100 _VBUSCT_588US _VSHCT_588US _MODE_SHUNT_BUS_CONTINUOUS
        DriverState.fresh Device.zero).1 = 0x41DF ∧
    (configure 0x0100 _VBUSCT_588US _VSHCT_588US _MODE_SHUNT_BUS_CONTINUOUS
        DriverState.fresh Device.zero).2.1.config = some 0x41DF ∧
    (configure 0x0100 _VBUSCT_588US _VSHCT_588US _MODE_SHUNT_BUS_CONTINUOUS
        DriverState.fresh Device.zero).2.2.1.configReg = 0x41DF ∧
    (configure 0x0100 _VBUSCT_588US _VSHCT_588US _MODE_SHUNT_BUS_CONTINUOUS
        DriverState.fresh Device.zero).2.2.2 = [(_REG_CONFIG, 0x41DF)] := by
  refine ⟨by decide, by decide, ?_, by decide, by decide⟩
  decide

/-- C1 (amended): `configure` performs no validation at all.  For every
avg/vbusct/vshct/mode arguments, legal or not, the call succeeds: it
returns the OR-combined word, stores it as the instance configuration, and
writes its 16-bit image to the configuration register; no InvalidParameter
error path exists. -/
theorem configure_total_no_validation (avg vbusct vshct mode : Nat)
    (s : DriverState) (d : Device) :
    (configure avg vbusct vshct mode s d).1 = encode_config avg vbusct vshct mode ∧
    (configure avg vbusct vshct mode s d).2.1 =
      { s with config := some (encode_config avg vbusct vshct mode) } ∧
    (configure avg vbusct vshct mode s d).2.2.1 =
      _write_u16 d _REG_CONFIG (encode_config avg vbusct vshct mode) ∧
    (configure avg vbusct vshct mode s d).2.2.2 =
      [(_REG_CONFIG, u16OfValue (encode_config avg vbusct vshct mode))] :=
  ⟨rfl, rfl, rfl, rfl⟩


/-- Path lemma: `calibrate` with `current_lsb_a` supplied and no
`cal_value` takes the computed path at that lsb. -/
theorem calibrate_direct_lsb (r lsb : ℚ) (mea : Option ℚ) (s : DriverState)
    (d : Device) (hr : ¬ r ≤ 0) (hl : ¬ lsb ≤ 0) :
    calibrate r mea (some lsb) none s d =
      .ok (calibrateStore (calibrationScalar r lsb) lsb s d) := by
  simp only [calibrate, hr, hl, if_false]

/-- Path lemma: `calibrate` with only `max_expected_amps` supplied derives
`current_lsb_a = max_expected_amps / 32768` and takes the computed path. -/
theorem calibrate_derived_lsb (r m : ℚ) (s : DriverState) (d : Device)
    (hr : ¬ r ≤ 0) (hm : ¬ m ≤ 0) :
    calibrate r (some m) none none s d =
      .ok (calibrateStore (calibrationScalar r (m / 32768)) (m / 32768) s d) := by
  simp only [calibrate, hr, hm, if_false]

/-- Path lemma: `calibrate` with `cal_value` supplied stores
`int(cal_value) & 0xFFFF` directly. -/
theorem calibrate_advanced (r lsb : ℚ) (mea : Option ℚ) (cv : Int)
    (s : DriverState) (d : Device) (hr : ¬ r ≤ 0) (hl : ¬ lsb ≤ 0) :
    calibrate r mea (some lsb) (some cv) s d =
      .ok (calibrateStore ((cv % 65536).toNat) lsb s d) := by
  simp only [calibrate, hr, hl, if_false]

/-- Concrete evaluation: the default-calibration scalar. -/
theorem calibrationScalar_default : calibrationScalar 0.1 0.0001 = 512 := by
  norm_num [calibrationScalar, pyTrunc, _CALIBRATION_FACTOR, Rat.floor]
  decide

/-- Concrete evaluation: the derived-lsb worked example. -/
theorem calibrationScalar_derived : calibrationScalar 0.1 (3.6 / 32768) = 466 := by
  norm_num [calibrationScalar, pyTrunc, _CALIBRATION_FACTOR, Rat.floor]
  decide

/-- C8: both documented worked examples hold exactly:
`calibrate(shunt_ohms=0.1, current_lsb_a=0.0001)` returns scalar 512 and
sets power_lsb to 0.0025 exactly; `calibrate(shunt_ohms=0.1,
max_expected_amps=3.6)` derives `current_lsb = 3.6/32768` and returns 466,
the integer truncation of `0.00512/(0.1 * 3.6/32768)`. -/
theorem calibrate_worked_examples :
    (calibrate 0.1 none (some 0.0001) none DriverState.fresh Device.zero =
      .ok (512, ⟨512, some 0.0001, some 0.0025, none⟩,
           { Device.zero with calibrationReg := 512 },
           [(_REG_CALIBRATION, 512)])) ∧
    (calibrate 0.1 (some 3.6) none none DriverState.fresh Device.zero =
      .ok (466, ⟨466, some (3.6 / 32768), some (25 * (3.6 / 32768)), none⟩,
           { Device.zero with calibrationReg := 466 },
           [(_REG_CALIBRATION, 466)])) := by
  constructor
  · rw [calibrate_direct_lsb 0.1 0.0001 none _ _ (by norm_num) (by norm_num),
      calibrationScalar_default]
    simp only [calibrateStore, DriverState.fresh, Device.zero, _write_u16,
      u16OfValue_eq_mod, _REG_CALIBRATION, _REG_CONFIG, _REG_SHUNTVOLTAGE,
      _REG_BUSVOLTAGE, _REG_POWER, _REG_CURRENT]
    norm_num
  · rw [calibrate_derived_lsb 0.1 3.6 _ _ (by norm_num) (by norm_num),
      calibrationScalar_derived]
    simp only [calibrateStore, DriverState.fresh, Device.zero, _write_u16,
      u16OfValue_eq_mod, _REG_CALIBRATION, _REG_CONFIG, _REG_SHUNTVOLTAGE,
      _REG_BUSVOLTAGE, _REG_POWER, _REG_CURRENT]
    norm_num


/-- The sequential clamping in the source equals the one-expression clamp
used in the specification. -/
theorem calibrationScalar_eq_clamp (r lsb : ℚ) :
    calibrationScalar r lsb =
      (if pyTrunc (0.00512 / (r * lsb)) ≤ 0 then 1
       else if 65535 < pyTrunc (0.00512 / (r * lsb)) then 65535
       else pyTrunc (0.00512 / (r * lsb))).toNat := by
  simp only [calibrationScalar, _CALIBRATION_FACTOR]
  by_cases h1 : pyTrunc ((0.00512 : ℚ) / (r * lsb)) ≤ 0
  · simp only [h1, if_true, if_pos]
    norm_num
  · simp only [h1, if_false, if_neg]

/-- C3: on the computed path with positive shunt resistance and a positive
current lsb (given directly, or derived as max_expected_amps / 32768), the
returned and stored calibration scalar is `0.00512 / (shunt * lsb)`
truncated toward zero and clamped (≤ 0 becomes 1, > 65535 becomes 65535),
the stored power_lsb is exactly `25 * lsb`, and the scalar is written to
the calibration register. -/
theorem calibrate_computed_path_spec (r lsb m : ℚ) (s : DriverState)
    (d : Device) (hr : 0 < r) (hl : 0 < lsb) (hm : 0 < m) :
    calibrate r none (some lsb) none s d =
      .ok ((if pyTrunc (0.00512 / (r * lsb)) ≤ 0 then 1
            else if 65535 < pyTrunc (0.00512 / (r * lsb)) then 65535
            else pyTrunc (0.00512 / (r * lsb))).toNat,
           ⟨(if pyTrunc (0.00512 / (r * lsb)) ≤ 0 then 1
             else if 65535 < pyTrunc (0.00512 / (r * lsb)) then 65535
             else pyTrunc (0.00512 / (r * lsb))).toNat,
            some lsb, some (25 * lsb), s.config⟩,
           _write_u16 d _REG_CALIBRATION
             (if pyTrunc (0.00512 / (r * lsb)) ≤ 0 then 1
              else if 65535 < pyTrunc (0.00512 / (r * lsb)) then 65535
              else pyTrunc (0.00512 / (r * lsb))).toNat,
           [(_REG_CALIBRATION,
             u16OfValue (if pyTrunc (0.00512 / (r * lsb)) ≤ 0 then 1
               else if 65535 < pyTrunc (0.00512 / (r * lsb)) then 65535
               else pyTrunc (0.00512 / (r * lsb))).toNat)]) ∧
    calibrate r (some m) none none s d =
      .ok ((if pyTrunc (0.00512 / (r * (m / 32768))) ≤ 0 then 1
            else if 65535 < pyTrunc (0.00512 / (r * (m / 32768))) then 65535
            else pyTrunc (0.00512 / (r * (m / 32768)))).toNat,
           ⟨(if pyTrunc (0.00512 / (r * (m / 32768))) ≤ 0 then 1
             else if 65535 < pyTrunc (0.00512 / (r * (m / 32768))) then 65535
             else pyTrunc (0.00512 / (r * (m / 32768)))).toNat,
            some (m / 32768), some (25 * (m / 32768)), s.config⟩,
           _write_u16 d _REG_CALIBRATION
             (if pyTrunc (0.00512 / (r * (m / 32768))) ≤ 0 then 1
              else if 65535 < pyTrunc (0.00512 / (r * (m / 32768))) then 65535
              else pyTrunc (0.00512 / (r * (m / 32768)))).toNat,
           [(_REG_CALIBRATION,
             u16OfValue (if pyTrunc (0.00512 / (r * (m / 32768))) ≤ 0 then 1
               else if 65535 < pyTrunc (0.00512 / (r * (m / 32768))) then 65535
               else pyTrunc (0.00512 / (r * (m / 32768)))).toNat)]) := by
  constructor
  · rw [calibrate_direct_lsb r lsb none s d (not_le.mpr hr) (not_le.mpr hl),
      calibrationScalar_eq_clamp]
    rfl
  · rw [calibrate_derived_lsb r m s d (not_le.mpr hr) (not_le.mpr hm),
      calibrationScalar_eq_clamp]
    rfl

/-- Witness for C3 at shunt = 2 ohm, lsb = 1 A/bit, max = 1 A. -/
theorem calibrate_computed_path_spec_witness :
    (0 : ℚ) < 2 ∧ (0 : ℚ) < 1 ∧
    (calibrate 2 none (some 1) none DriverState.fresh Device.zero =
      .ok ((if pyTrunc (0.00512 / (2 * 1)) ≤ 0 then 1
            else if 65535 < pyTrunc (0.00512 / (2 * 1)) then 65535
            else pyTrunc (0.00512 / (2 * 1))).toNat,
           ⟨(if pyTrunc (0.00512 / (2 * 1)) ≤ 0 then 1
             else if 65535 < pyTrunc (0.00512 / (2 * 1)) then 65535
             else pyTrunc (0.00512 / (2 * 1))).toNat,
            some 1, some (25 * 1), DriverState.fresh.config⟩,
           _write_u16 Device.zero _REG_CALIBRATION
             (if pyTrunc (0.00512 / (2 * 1)) ≤ 0 then 1
              else if 65535 < pyTrunc (0.00512 / (2 * 1)) then 65535
              else pyTrunc (0.00512 / (2 * 1))).toNat,
           [(_REG_CALIBRATION,
             u16OfValue (if pyTrunc (0.00512 / (2 * 1)) ≤ 0 then 1
               else if 65535 < pyTrunc (0.00512 / (2 * 1)) then 65535
               else pyTrunc (0.00512 / (2 * 1))).toNat)]) ∧
     calibrate 2 (some 1) none none DriverState.fresh Device.zero =
      .ok ((if pyTrunc (0.00512 / (2 * (1 / 32768))) ≤ 0 then 1
            else if 65535 < pyTrunc (0.00512 / (2 * (1 / 32768))) then 65535
            else pyTrunc (0.00512 / (2 * (1 / 32768)))).toNat,
           ⟨(if pyTrunc (0.00512 / (2 * (1 / 32768))) ≤ 0 then 1
             else if 65535 < pyTrunc (0.00512 / (2 * (1 / 32768))) then 65535
             else pyTrunc (0.00512 / (2 * (1 / 32768)))).toNat,
            some ((1 : ℚ) / 32768), some (25 * ((1 : ℚ) / 32768)),
            DriverState.fresh.config⟩,
           _write_u16 Device.zero _REG_CALIBRATION
             (if pyTrunc (0.00512 / (2 * (1 / 32768))) ≤ 0 then 1
              else if 65535 < pyTrunc (0.00512 / (2 * (1 / 32768))) then 65535
              else pyTrunc (0.00512 / (2 * (1 / 32768)))).toNat,
           [(_REG_CALIBRATION,
             u16OfValue (if pyTrunc (0.00512 / (2 * (1 / 32768))) ≤ 0 then 1
               else if 65535 < pyTrunc (0.00512 / (2 * (1 / 32768))) then 65535
               else pyTrunc (0.00512 / (2 * (1 / 32768)))).toNat)])) :=
  ⟨by decide, by decide,
   calibrate_computed_path_spec 2 1 1 DriverState.fresh Device.zero
     (by decide) (by decide) (by decide)⟩


/-- C2 counterexample: a successful advanced-path call with cal_value = 0
stores the calibration scalar 0 in the instance and writes 0 to the
device's calibration register, contradicting the claim that the stored
scalar always lies in [1, 65535] and that 0 is never stored or written. -/
theorem calibrate_advanced_stores_zero :
    calibrate 1 none (some 1) (some 0) DriverState.fresh Device.zero =
      .ok (0, ⟨0, some 1, some (25 * 1), none⟩, Device.zero,
           [(_REG_CALIBRATION, 0)]) := by
  rw [calibrate_advanced 1 1 none 0 DriverState.fresh Device.zero
    (by decide) (by decide)]
  rfl

/-- C2 (amended): after every successful `calibrate` the stored scalar is
the returned scalar and is at most 65535; the lower bound 1 (and hence
"0 is never stored") holds on the computed path (`cal_value` not given),
while the advanced path stores `int(cal_value) & 0xFFFF`, which can be 0. -/
theorem calibrate_stored_scalar_range (r : ℚ) (mea lsb : Option ℚ)
    (cv : Option Int) (s s2 : DriverState) (d d2 : Device) (c : Nat)
    (log : BusLog) (h : calibrate r mea lsb cv s d = .ok (c, s2, d2, log)) :
    s2.cal_value = c ∧ c ≤ 65535 ∧ (cv = none → 1 ≤ c) := by
  by_cases hr : r ≤ 0
  · simp [calibrate, hr] at h
  cases cv with
  | some v =>
    cases lsb with
    | none => simp [calibrate, hr] at h
    | some l =>
      by_cases hl : l ≤ 0
      · simp [calibrate, hr, hl] at h
      · rw [calibrate_advanced r l mea v s d hr hl] at h
        simp only [calibrateStore, Except.ok.injEq, Prod.mk.injEq] at h
        obtain ⟨hc, hst, -, -⟩ := h
        refine ⟨?_, ?_, by simp⟩
        · rw [← hst, ← hc]
        · have h1 : (0 : Int) ≤ v % 65536 :=
            Int.emod_nonneg v (by norm_num)
          have h2 : v % 65536 < 65536 :=
            Int.emod_lt_of_pos v (by norm_num)
          omega
  | none =>
    cases lsb with
    | some l =>
      by_cases hl : l ≤ 0
      · simp [calibrate, hr, hl] at h
      · rw [calibrate_direct_lsb r l mea s d hr hl] at h
        simp only [calibrateStore, Except.ok.injEq, Prod.mk.injEq] at h
        obtain ⟨hc, hst, -, -⟩ := h
        have hrange := calibrationScalar_range r l
        exact ⟨by rw [← hst, ← hc], by omega, fun _ => by omega⟩
    | none =>
      cases mea with
      | none => simp [calibrate, hr] at h
      | some m =>
        by_cases hm : m ≤ 0
        · simp [calibrate, hr, hm] at h
        · rw [calibrate_derived_lsb r m s d hr hm] at h
          simp only [calibrateStore, Except.ok.injEq, Prod.mk.injEq] at h
          obtain ⟨hc, hst, -, -⟩ := h
          have hrange := calibrationScalar_range r (m / 32768)
          exact ⟨by rw [← hst, ← hc], by omega, fun _ => by omega⟩

/-- Witness for C2 (amended) at a concrete successful advanced-path call. -/
theorem calibrate_stored_scalar_range_witness :
    (calibrate 2 none (some 1) (some 5) DriverState.fresh Device.zero =
      .ok (5, ⟨5, some 1, some (25 * 1), none⟩,
           { Device.zero with calibrationReg := 5 }, [(_REG_CALIBRATION, 5)])) ∧
    ((⟨5, some 1, some (25 * 1), none⟩ : DriverState).cal_value = 5 ∧
     5 ≤ 65535 ∧ ((some (5 : Int) : Option Int) = none → 1 ≤ 5)) :=
  ⟨rfl,
   calibrate_stored_scalar_range 2 none (some 1) (some 5) DriverState.fresh
     ⟨5, some 1, some (25 * 1), none⟩ Device.zero
     { Device.zero with calibrationReg := 5 } 5 [(_REG_CALIBRATION, 5)] rfl⟩


/-- C4: once the calibration scalar is set, `_ensure_calibration` reads
the live calibration register and issues a write of the stored scalar if
and only if the value read back differs from it; when they match no write
is issued and the device is left unchanged. -/
theorem ensure_calibration_reconciles (s : DriverState) (d : Device)
    (h : s.cal_value ≠ 0) :
    (_read_u16 d _REG_CALIBRATION = s.cal_value →
      _ensure_calibration s d = .ok (d, [])) ∧
    (_read_u16 d _REG_CALIBRATION ≠ s.cal_value →
      _ensure_calibration s d =
        .ok (_write_u16 d _REG_CALIBRATION s.cal_value,
             [(_REG_CALIBRATION, u16OfValue s.cal_value)])) := by
  constructor <;> intro hr
  · simp [_ensure_calibration, h, hr]
  · simp [_ensure_calibration, h, hr]

/-- Witness for C4 at a calibrated state over the all-zero device
(register reads 0 ≠ 512, so the rewrite branch applies). -/
theorem ensure_calibration_reconciles_witness :
    (⟨512, none, none, none⟩ : DriverState).cal_value ≠ 0 ∧
    ((_read_u16 Device.zero _REG_CALIBRATION =
        (⟨512, none, none, none⟩ : DriverState).cal_value →
      _ensure_calibration ⟨512, none, none, none⟩ Device.zero =
        .ok (Device.zero, [])) ∧
     (_read_u16 Device.zero _REG_CALIBRATION ≠
        (⟨512, none, none, none⟩ : DriverState).cal_value →
      _ensure_calibration ⟨512, none, none, none⟩ Device.zero =
        .ok (_write_u16 Device.zero _REG_CALIBRATION
               (⟨512, none, none, none⟩ : DriverState).cal_value,
             [(_REG_CALIBRATION,
               u16OfValue (⟨512, none, none, none⟩ : DriverState).cal_value)]))) :=
  ⟨by decide, ensure_calibration_reconciles ⟨512, none, none, none⟩ Device.zero
    (by decide)⟩

/-- C5: in any state whose calibration scalar is unset — true of the fresh
instance state and preserved by every operation other than `calibrate` —
reading current or power fails with NotCalibrated; and a `calibrate` call
with shunt_ohms = 0 returns an InvalidParameter error (an error result, so
neither instance state nor any device register is changed). -/
theorem uncalibrated_reads_fail (s : DriverState) (d : Device)
    (h : s.cal_value = 0) :
    currentRead s d = .error .notCalibrated ∧
    powerRead s d = .error .notCalibrated ∧
    DriverState.fresh.cal_value = 0 ∧
    (∀ mea lsb cv, calibrate 0 mea lsb cv s d = .error .invalidParameter) ∧
    (∀ avg vbusct vshct mode,
      ((configure avg vbusct vshct mode s d).2.1).cal_value = s.cal_value) ∧
    ((reset s d).1).cal_value = s.cal_value := by
  refine ⟨?_, ?_, rfl, ?_, fun _ _ _ _ => rfl, rfl⟩
  · simp [currentRead, _ensure_calibration, h]
  · simp [powerRead, _ensure_calibration, h]
  · intro mea lsb cv
    simp [calibrate]

/-- Witness for C5 at the fresh state over the all-zero device. -/
theorem uncalibrated_reads_fail_witness :
    DriverState.fresh.cal_value = 0 ∧
    (currentRead DriverState.fresh Device.zero = .error .notCalibrated ∧
     powerRead DriverState.fresh Device.zero = .error .notCalibrated ∧
     DriverState.fresh.cal_value = 0 ∧
     (∀ mea lsb cv,
       calibrate 0 mea lsb cv DriverState.fresh Device.zero =
         .error .invalidParameter) ∧
     (∀ avg vbusct vshct mode,
       ((configure avg vbusct vshct mode DriverState.fresh Device.zero).2.1).cal_value =
         DriverState.fresh.cal_value) ∧
     ((reset DriverState.fresh Device.zero).1).cal_value =
       DriverState.fresh.cal_value) :=
  ⟨rfl, uncalibrated_reads_fail DriverState.fresh Device.zero rfl⟩


/-- C10: `reset` writes only the reset bit 0x8000 to the configuration
register — the instance state (calibration scalar, both LSBs, stored
config word) is untouched and no other device register changes — and
afterwards, whenever the live calibration register no longer matches the
stored scalar (in particular when the chip zeroed it during the reset),
the next current or power read rewrites the stored scalar to the device
through the ensure-calibrated check. -/
theorem reset_frame_and_reheal (s : DriverState) (d : Device) (l p : ℚ)
    (hc : s.cal_value ≠ 0) (hl : s.current_lsb_a = some l)
    (hp : s.power_lsb_w = some p) :
    reset s d = (s, { d with configReg := 0x8000 }, [(_REG_CONFIG, 0x8000)]) ∧
    (∀ d2 : Device, _read_u16 d2 _REG_CALIBRATION ≠ s.cal_value →
      currentRead s d2 =
        .ok ((_to_signed_16 d2.currentReg : ℚ) * l,
             _write_u16 d2 _REG_CALIBRATION s.cal_value,
             [(_REG_CALIBRATION, u16OfValue s.cal_value)]) ∧
      powerRead s d2 =
        .ok ((_to_signed_16 d2.powerReg : ℚ) * p,
             _write_u16 d2 _REG_CALIBRATION s.cal_value,
             [(_REG_CALIBRATION, u16OfValue s.cal_value)])) := by
  constructor
  · have h8 : u16OfValue _CONFIG_RESET_BIT = 0x8000 := by decide
    simp [reset, _write_u16, _REG_CONFIG, h8]
  · intro d2 hne
    have hne2 : d2.calibrationReg ≠ s.cal_value := by
      simpa [_read_u16, _REG_CALIBRATION, _REG_CONFIG, _REG_SHUNTVOLTAGE,
        _REG_BUSVOLTAGE, _REG_POWER, _REG_CURRENT] using hne
    constructor
    · simp [currentRead, _ensure_calibration, hc, hne2, hl, _read_u16,
        _write_u16, _REG_CURRENT, _REG_CALIBRATION, _REG_CONFIG,
        _REG_SHUNTVOLTAGE, _REG_BUSVOLTAGE, _REG_POWER]
    · simp [powerRead, _ensure_calibration, hc, hne2, hp, _read_u16,
        _write_u16, _REG_POWER, _REG_CALIBRATION, _REG_CONFIG,
        _REG_SHUNTVOLTAGE, _REG_BUSVOLTAGE, _REG_CURRENT]

/-- Witness for C10 at a calibrated state (scalar 512, lsb 1, power lsb
25) over the all-zero device. -/
theorem reset_frame_and_reheal_witness :
    (⟨512, some 1, some 25, none⟩ : DriverState).cal_value ≠ 0 ∧
    (⟨512, some 1, some 25, none⟩ : DriverState).current_lsb_a = some 1 ∧
    (⟨512, some 1, some 25, none⟩ : DriverState).power_lsb_w = some 25 ∧
    (reset ⟨512, some 1, some 25, none⟩ Device.zero =
       (⟨512, some 1, some 25, none⟩,
        { Device.zero with configReg := 0x8000 }, [(_REG_CONFIG, 0x8000)]) ∧
     (∀ d2 : Device,
       _read_u16 d2 _REG_CALIBRATION ≠
         (⟨512, some 1, some 25, none⟩ : DriverState).cal_value →
       currentRead ⟨512, some 1, some 25, none⟩ d2 =
         .ok ((_to_signed_16 d2.currentReg : ℚ) * 1,
              _write_u16 d2 _REG_CALIBRATION
                (⟨512, some 1, some 25, none⟩ : DriverState).cal_value,
              [(_REG_CALIBRATION,
                u16OfValue (⟨512, some 1, some 25, none⟩ : DriverState).cal_value)]) ∧
       powerRead ⟨512, some 1, some 25, none⟩ d2 =
         .ok ((_to_signed_16 d2.powerReg : ℚ) * 25,
              _write_u16 d2 _REG_CALIBRATION
                (⟨512, some 1, some 25, none⟩ : DriverState).cal_value,
              [(_REG_CALIBRATION,
                u16OfValue (⟨512, some 1, some 25, none⟩ : DriverState).cal_value)]))) :=
  ⟨by decide, rfl, rfl,
   reset_frame_and_reheal ⟨512, some 1, some 25, none⟩ Device.zero 1 25
     (by decide) rfl rfl⟩


/-- C9: constructing a driver instance always performs the default
configure (avg 512, 588 us bus and shunt conversion, continuous
shunt-and-bus mode — config word 0x4CDF) followed by
`calibrate(r_shunt_ohms=0.1, max_expected_amps=3.6, current_lsb_a=0.0001)`,
so every fresh instance is calibrated with scalar 512 (lsb 0.0001,
power lsb 0.0025), and current/power reads on that state never fail with
NotCalibrated. -/
theorem INA226_init_spec (d : Device) :
    INA226_init d =
      .ok (⟨512, some 0.0001, some 0.0025, some 0x4CDF⟩,
           { d with configReg := 0x4CDF, calibrationReg := 512 },
           [(_REG_CONFIG, 0x4CDF), (_REG_CALIBRATION, 512)]) ∧
    (∀ d2 : Device,
      currentRead ⟨512, some 0.0001, some 0.0025, some 0x4CDF⟩ d2 ≠
        .error .notCalibrated ∧
      powerRead ⟨512, some 0.0001, some 0.0025, some 0x4CDF⟩ d2 ≠
        .error .notCalibrated) := by
  constructor
  · have hcfg : encode_config _AVG_512 _VBUSCT_588US _VSHCT_588US
        _MODE_SHUNT_BUS_CONTINUOUS = 0x4CDF := by decide
    have h512 : u16OfValue 512 = 512 := by decide
    have hcfg16 : u16OfValue 0x4CDF = 0x4CDF := by decide
    simp only [INA226_init, configure]
    rw [calibrate_direct_lsb 0.1 0.0001 (some 3.6) _ _ (by norm_num)
      (by norm_num), calibrationScalar_default]
    simp only [calibrateStore, hcfg, h512, hcfg16, DriverState.fresh]
    simp [_write_u16, _REG_CONFIG, _REG_CALIBRATION, _REG_SHUNTVOLTAGE,
      _REG_BUSVOLTAGE, _REG_POWER, _REG_CURRENT, h512, hcfg16]
    norm_num
  · intro d2
    constructor
    · by_cases hne : d2.calibrationReg = 512
      · simp [currentRead, _ensure_calibration, _read_u16, _REG_CALIBRATION,
          _REG_CONFIG, _REG_SHUNTVOLTAGE, _REG_BUSVOLTAGE, _REG_POWER,
          _REG_CURRENT, hne]
      · simp [currentRead, _ensure_calibration, _read_u16, _REG_CALIBRATION,
          _REG_CONFIG, _REG_SHUNTVOLTAGE, _REG_BUSVOLTAGE, _REG_POWER,
          _REG_CURRENT, hne]
    · by_cases hne : d2.calibrationReg = 512
      · simp [powerRead, _ensure_calibration, _read_u16, _REG_CALIBRATION,
          _REG_CONFIG, _REG_SHUNTVOLTAGE, _REG_BUSVOLTAGE, _REG_POWER,
          _REG_CURRENT, hne]
      · simp [powerRead, _ensure_calibration, _read_u16, _REG_CALIBRATION,
          _REG_CONFIG, _REG_SHUNTVOLTAGE, _REG_BUSVOLTAGE, _REG_POWER,
          _REG_CURRENT, hne]

